import Mathlib

set_option maxHeartbeats 1000000

/-!  Shallow embedding of the rliim_kiosk_bridge import pipeline
     (src/rliim_import/rliimcmimport.py and src/rliim_import/rliim2kioskimport.py).

     Spreadsheet cells are modelled by `CellVal`, rows by `List CellVal`,
     the staging relation `rliim_cm_import` by `List StagingRec`, and the
     production relations by lists of record structures.  Machine floats do
     not occur in the verified claims; exact rationals model the one float
     computation (`get_grams`).  Python exceptions that escape the import
     loops are modelled by explicit `crash` outcomes.  -/

/-- Cell values as delivered by openpyxl (`cell.value`): `None`, text,
integers, booleans, datetimes (an opaque tick count). -/
inductive CellVal where
  | empty
  | vstr (s : String)
  | vint (n : Int)
  | vbool (b : Bool)
  | vdate (d : Nat)
deriving DecidableEq, Repr

/-- ASCII whitespace recognised by Python's `str.strip`. -/
def pySpace (c : Char) : Bool :=
  c == ' ' || c == '\t' || c == '\n' || c == '\r' || c == '\x0b' || c == '\x0c'

def pyStripL (l : List Char) : List Char :=
  ((l.dropWhile pySpace).reverse.dropWhile pySpace).reverse

/-- Python `str.strip()`. -/
def pyStrip (s : String) : String := ⟨pyStripL s.data⟩

def pyLowerChar (c : Char) : Char :=
  if 'A' ≤ c ∧ c ≤ 'Z' then Char.ofNat (c.toNat + 32) else c

/-- Python `str.lower()` (ASCII fragment; the header strings and keys that
occur in the program are ASCII). -/
def pyLower (s : String) : String := ⟨s.data.map pyLowerChar⟩

/-- Python truthiness of an openpyxl cell value. -/
def truthy : CellVal → Bool
  | .empty => false
  | .vstr s => !(s == "")
  | .vint n => !(n == 0)
  | .vbool b => b
  | .vdate _ => true

/-- Python `str(value)`. -/
def pyStr : CellVal → String
  | .empty => "None"
  | .vstr s => s
  | .vint n => toString n
  | .vbool b => if b then "True" else "False"
  | .vdate d => "datetime-" ++ toString d

def natOfDigitsL (l : List Char) : Nat :=
  l.foldl (fun a c => a * 10 + (c.toNat - 48)) 0

/-- Python `int(s)` on a string: strip, optional sign, decimal digits. -/
def pyIntStr (s : String) : Option Int :=
  let l := pyStripL s.data
  let p : Int × List Char :=
    match l with
    | '-' :: t => (-1, t)
    | '+' :: t => (1, t)
    | t => (1, t)
  if p.2 ≠ [] ∧ p.2.all Char.isDigit then some (p.1 * (natOfDigitsL p.2 : Int)) else none

/-- Python `int(value)` on a cell value (`TypeError`/`ValueError` = `none`). -/
def pyIntCell : CellVal → Option Int
  | .vint n => some n
  | .vbool b => some (if b then 1 else 0)
  | .vstr s => pyIntStr s
  | _ => none

/-- Reading `row[i].value`; a position beyond the row behaves like an empty
cell. -/
def cellAt (row : List CellVal) (i : Nat) : CellVal := row.getD i .empty

/-- The `get_or(index, None)` helper of the row loops: the cell value when
truthy, otherwise `None`. -/
def getOr (c : CellVal) : Option CellVal := if truthy c then some c else none

/-- Loop head sentinel `not row[0].value or not str(row[0].value).strip()`. -/
def sentinelCheck (c0 : CellVal) : Bool :=
  !truthy c0 || pyStrip (pyStr c0) == ""

/-- A character matched by the character class `[A|B|C|D]` of the source's
context/trench regexes (note: the class contains the literal bar). -/
def codeTrenchChar (c : Char) : Bool :=
  c == 'A' || c == 'B' || c == 'C' || c == 'D' || c == '|'

/-- `re.search(r"^[A|B|C|D]\d\d\d$", s)` of the source. -/
def codeContextPat (s : String) : Bool :=
  match s.data with
  | [a, b, c, d] => codeTrenchChar a && b.isDigit && c.isDigit && d.isDigit
  | _ => false

/-- `re.search(r"^[A|B|C|D]$", s)` of the source. -/
def codeTrenchPat (s : String) : Bool :=
  match s.data with
  | [a] => codeTrenchChar a
  | _ => false

/-- Stated from the spec's words for comparison: the pattern `^[A-D]\d{3}$`
that the spec claims the context must match. -/
def specContextPat (s : String) : Bool :=
  match s.data with
  | [a, b, c, d] => (a == 'A' || a == 'B' || a == 'C' || a == 'D')
      && b.isDigit && c.isDigit && d.isDigit
  | _ => false

/-- Log events emitted by the import code (message text abbreviated to
constructors; severity follows the source call sites). -/
inductive Msg where
  | invalidLotNumber
  | contextNotRight
  | noContext
  | trenchNotRight
  | trenchMismatch
  | typeEmpty
  | dateExcavatedNotDate
  | dateExcavatedEmpty
  | dateRecordedNotDate
  | sherdCountNotNumber
  | sherdCountNotCeramic
  | duplicateLot (k : String)
  | measurePartDropped (t : String)
  | dimensionTwice (k : String)
  | dimensionUnknown (k : String)
  | weightFishy
  | noLotsMatch
  | multipleLotsMatch
  | contextMismatchLots
  | structuralError (sheet : String)
deriving DecidableEq, Repr

/-- One row of the staging relation `rliim_cm_import` (columns of
`create_import_table`; columns not supplied by an INSERT default to NULL). -/
structure StagingRec where
  line_ref : Int
  cm_type : String
  lot : String
  locus : String
  unit : String
  arch_domain : Option String
  arch_context : String
  local_nr : Int
  type : Option String
  date_excavated : Option Nat
  date_entered : Option Nat
  photographed : Bool
  description : Option CellVal
  count : Option Int
  location : Option CellVal := none
  sf_type : Option String := none
  sf_measures : Option String := none
  sf_length_mm : Option String := none
  sf_height_mm : Option String := none
  sf_width_mm : Option String := none
  sf_thickness_mm : Option String := none
  sf_diameter_mm : Option String := none
  sf_diameter_perf_mm : Option String := none
  sf_weight : Option Int := none
  sf_description : Option CellVal := none
  sf_date_excavated : Option Nat := none
  sf_date_entered : Option Nat := none
  sf_photographed : Option Bool := none
deriving DecidableEq, Repr

/-- Outcome of normalising one spreadsheet row.  `crash` models a Python
exception that escapes the row loop (e.g. `.strip()` on a non-string trench
cell); it carries the messages logged before the exception. -/
inductive RowOutcome where
  | sentinel
  | skip (msgs : List Msg)
  | crash (msgs : List Msg)
  | accept (rec : StagingRec) (msgs : List Msg)
deriving DecidableEq, Repr

def RowOutcome.isSkip : RowOutcome → Bool
  | .skip _ => true
  | _ => false

def RowOutcome.msgs : RowOutcome → List Msg
  | .sentinel => []
  | .skip m => m
  | .crash m => m
  | .accept _ m => m

/-- Result of the shared context/trench validation block (identical in the
Lots, Samples and Artifacts loops of the source). -/
inductive CTResult where
  | skip (msgs : List Msg)
  | crash (msgs : List Msg)
  | ok (context trench : String) (msgs : List Msg)
deriving DecidableEq, Repr

/-- Python `s[0]` as a one-character string (callers guard non-emptiness). -/
def pyTake1 (s : String) : String := ⟨s.data.take 1⟩

/-- The context/trench block: context must strip to a string matching
`^[A|B|C|D]\d\d\d$` (failure or a non-string cell skips the row); the trench
must strip to a string matching `^[A|B|C|D]$` (failure skips, a non-string
cell raises `AttributeError`); a trench differing from the first context
character only logs a warning. -/
def checkContextTrench (c1 c2 : CellVal) : CTResult :=
  match c1 with
  | .vstr cs =>
    if codeContextPat (pyStrip cs) then
      match c2 with
      | .vstr ts =>
        if codeTrenchPat (pyStrip ts) then
          .ok (pyStrip cs) (pyStrip ts)
            (if (pyStrip cs).data ≠ [] ∧ pyStrip ts ≠ pyTake1 (pyStrip cs) then
              [.trenchMismatch] else [])
        else .skip [.trenchNotRight]
      | _ => .crash []
    else .skip [.contextNotRight]
  | _ => .skip [.noContext]

/-- A field computation that can raise. -/
inductive FieldRes (α : Type) where
  | crash (msgs : List Msg)
  | ok (v : α) (msgs : List Msg)
deriving DecidableEq, Repr

/-- The type/category cell: lower-cased when a truthy string, a warning when
falsy, `AttributeError` when truthy but not a string. -/
def typeField (c : CellVal) : FieldRes (Option String) :=
  if truthy c then
    match c with
    | .vstr s => .ok (some (pyLower s)) []
    | _ => .crash []
  else .ok none [.typeEmpty]

def dateOf : CellVal → Option Nat
  | .vdate d => some d
  | _ => none

/-- Date cell that warns when empty (date excavated). -/
def dateFieldLoud (c : CellVal) : Option Nat × List Msg :=
  match getOr c with
  | some (.vdate d) => (some d, [])
  | some _ => (none, [.dateExcavatedNotDate])
  | none => (none, [.dateExcavatedEmpty])

/-- Date cell that stays quiet when empty (date recorded / date entered). -/
def dateFieldQuiet (c : CellVal) : Option Nat × List Msg :=
  match getOr c with
  | some (.vdate d) => (some d, [])
  | some _ => (none, [.dateRecordedNotDate])
  | none => (none, [])

/-- The sherd-count cell of the Lots loop.  A Python `bool` passes the
`isinstance(…, int)` check.  When the count is numeric the source calls
`lot_type.lower()`, which raises on a `None` type. -/
def sherdField (c : CellVal) (lot_type : Option String) : FieldRes (Option Int) :=
  match getOr c with
  | some (.vint n) =>
    match lot_type with
    | none => .crash []
    | some lt => .ok (some n) (if lt ≠ "ceramic" then [.sherdCountNotCeramic] else [])
  | some (.vbool true) =>
    match lot_type with
    | none => .crash []
    | some lt => .ok (some 1) (if lt ≠ "ceramic" then [.sherdCountNotCeramic] else [])
  | some _ => .ok none [.sherdCountNotNumber]
  | none => .ok none []

/-- `f"{context[0]}-{context[1:]}"`. -/
def deriveLocus (context : String) : String :=
  ⟨context.data.take 1 ++ '-' :: context.data.drop 1⟩

/-- `f"{locus}-{lot}"` for a lot rendered as `lotStr`. -/
def deriveArch (locus lotStr : String) : String :=
  ⟨locus.data ++ '-' :: lotStr.data⟩

/-- One Lots row (`import_lot_rows`, body of the scan loop up to the INSERT),
taking the first eight cells; columns 8 (`recorded`) and 9 (`photographed`)
are never read by the source. -/
def lotCore (rowNr : Int) (c0 c1 c2 c3 c4 c5 c6 c7 : CellVal) : RowOutcome :=
  if sentinelCheck c0 then .sentinel else
  match pyIntCell c0 with
  | none => .skip [.invalidLotNumber]
  | some lot_nr =>
    if lot_nr ≤ 0 then .skip [.invalidLotNumber] else
    match checkContextTrench c1 c2 with
    | .skip m => .skip m
    | .crash m => .crash m
    | .ok context trench m0 =>
      match typeField c3 with
      | .crash m1 => .crash (m0 ++ m1)
      | .ok lot_type m1 =>
        let de := dateFieldLoud c4
        let description := getOr c5
        let dr := dateFieldQuiet c6
        match sherdField c7 lot_type with
        | .crash m4 => .crash (m0 ++ m1 ++ de.2 ++ dr.2 ++ m4)
        | .ok sherd m4 =>
          let locus := deriveLocus context
          .accept
            { line_ref := rowNr
              cm_type := "bulk"
              lot := toString lot_nr
              locus := locus
              unit := trench
              arch_domain := none
              arch_context := deriveArch locus (toString lot_nr)
              local_nr := lot_nr
              type := lot_type
              date_excavated := de.1
              date_entered := dr.1
              photographed := truthy c7
              description := description
              count := sherd }
            (m0 ++ m1 ++ de.2 ++ dr.2 ++ m4)

/-- `import_lot_rows` row normalisation applied to a spreadsheet row. -/
def rowNormalizeLot (rowNr : Int) (row : List CellVal) : RowOutcome :=
  lotCore rowNr (cellAt row 0) (cellAt row 1) (cellAt row 2) (cellAt row 3)
    (cellAt row 4) (cellAt row 5) (cellAt row 6) (cellAt row 7)

/-- The notes handling of a Samples row (`import_sample_rows`): a truthy
notes cell is appended to the description (string formatting of the notes
value); appending to a truthy non-string description raises `TypeError`. -/
def notesField (description : Option CellVal) (c6 : CellVal) : FieldRes (Option CellVal) :=
  if truthy c6 then
    match description with
    | none => .ok (some (.vstr (pyStr c6))) []
    | some (.vstr d) => .ok (some (.vstr (d ++ " " ++ pyStr c6))) []
    | some _ => .crash []
  else .ok description []

/-- The sample-number parse `int(lot_nr[1:])`: requires a string cell whose
tail parses as an integer (any raised exception is caught as an invalid lot
number). -/
def sampleLotParse (c0 : CellVal) : Option (String × Int) :=
  match c0 with
  | .vstr lotStr =>
    match pyIntStr ⟨lotStr.data.drop 1⟩ with
    | none => none
    | some n => some (lotStr, n)
  | _ => none

/-- One Samples row (`import_sample_rows`): the sample number must have a
positive integer tail; `date_recorded = date_excavated`; photographed is
always `False` and the count column is always NULL. -/
def sampleCore (rowNr : Int) (c0 c1 c2 c3 c4 c5 c6 c7 : CellVal) : RowOutcome :=
  if sentinelCheck c0 then .sentinel else
  match sampleLotParse c0 with
  | none => .skip [.invalidLotNumber]
  | some (lotStr, local_nr) =>
      if local_nr ≤ 0 then .skip [.invalidLotNumber] else
      match checkContextTrench c1 c2 with
      | .skip m => .skip m
      | .crash m => .crash m
      | .ok context trench m0 =>
        match typeField c3 with
        | .crash m1 => .crash (m0 ++ m1)
        | .ok lot_type m1 =>
          match notesField (getOr c4) c6 with
          | .crash m2 => .crash (m0 ++ m1 ++ (dateFieldLoud c5).2 ++ m2)
          | .ok description2 _ =>
            let locus := deriveLocus context
            .accept
              { line_ref := rowNr
                cm_type := "sample"
                lot := lotStr
                locus := locus
                unit := trench
                arch_domain := some "S"
                arch_context := deriveArch locus lotStr
                local_nr := local_nr
                type := lot_type
                date_excavated := (dateFieldLoud c5).1
                date_entered := (dateFieldLoud c5).1
                photographed := false
                description := description2
                count := none
                location := getOr c7 }
              (m0 ++ m1 ++ (dateFieldLoud c5).2)

/-- `import_sample_rows` row normalisation applied to a spreadsheet row. -/
def rowNormalizeSample (rowNr : Int) (row : List CellVal) : RowOutcome :=
  sampleCore rowNr (cellAt row 0) (cellAt row 1) (cellAt row 2) (cellAt row 3)
    (cellAt row 4) (cellAt row 5) (cellAt row 6) (cellAt row 7)

/-- Python `s.split(c)` on character lists. -/
def splitOnC (c : Char) : List Char → List (List Char)
  | [] => [[]]
  | h :: t =>
    match splitOnC c t with
    | [] => [[]]
    | r :: rs => if h == c then [] :: r :: rs else (h :: r) :: rs

def pref : List Char → List Char → Bool
  | [], _ => true
  | _ :: _, [] => false
  | a :: as, b :: bs => a == b && pref as bs

def isSub (n : List Char) : List Char → Bool
  | [] => n.isEmpty
  | h :: t => pref n (h :: t) || isSub n t

/-- Python substring containment `n in h`. -/
def strIn (n h : String) : Bool := isSub n.data h.data

def firstDigitRun : List Char → Option (List Char)
  | [] => none
  | h :: t => if h.isDigit then some (h :: t.takeWhile Char.isDigit) else firstDigitRun t

/-- Modelled from the spec: `kioskstdlib.force_positive_int_from_string` is
external library code (the `kioskstdlib` dependency, not part of this
repository's sources).  The spec's token grammar says the value "must contain
a parsable leading number" and both call sites treat `-1` as "no number in
the string"; the model extracts the first maximal run of decimal digits as a
nonnegative integer and returns `-1` when the string contains no digit.  The
function has no unit awareness. -/
def force_positive_int_from_string (s : String) : Int :=
  match firstDigitRun s.data with
  | some ds => (natOfDigitsL ds : Int)
  | none => -1

/-- `interpret_measure_token` of `import_artifacts_rows`: splits `key:value`,
resolves the key through the alias chain, requires a known measurement unit
substring in the value (`mm`, `cm`, `" m"`, or `g` for weight only) and a
digit somewhere in the token; the result `("error", reason)` marks an
unparseable fragment. -/
def interpret_measure_token (t : String) : String × String :=
  match splitOnC ':' t.data with
  | [p0, p1] =>
    let key := pyLower (pyStrip ⟨p0⟩)
    let value := pyLower (pyStrip ⟨p1⟩)
    let key2 : Option String :=
      if key == "w" || key == "l" || key == "h" then some key
      else if strIn "perf" key then some "perf"
      else if strIn "weight" key then some "weight"
      else if strIn "dia" key then some "dia"
      else if strIn "len" key then some "l"
      else if strIn "width" key then some "w"
      else if strIn "height" key then some "h"
      else if strIn "thick" key then some "thickness"
      else none
    match key2 with
    | none => ("error", "unclear dimension " ++ key)
    | some k =>
      if strIn "mm" value || strIn "cm" value || strIn " m" value then
        if force_positive_int_from_string t == -1 then ("error", "no number in " ++ t)
        else (k, value)
      else if k == "weight" && strIn "g" value then
        if force_positive_int_from_string t == -1 then ("error", "no number in " ++ t)
        else (k, value)
      else ("error", "no known measurement unit in " ++ k ++ ".")
  | _ => ("error", ": missing in " ++ t)

/-- The dimension slots filled by the measures loop, plus the messages it
logs. -/
structure Dims where
  length : Option String := none
  height : Option String := none
  width : Option String := none
  thickness : Option String := none
  diameter : Option String := none
  diameter_perf : Option String := none
  msgs : List Msg := []
deriving DecidableEq, Repr

/-- Python truthiness of the dimension variables (`None` or a string). -/
def truthyStr : Option String → Bool
  | none => false
  | some s => !(s == "")

/-- One iteration of the measures token loop of `import_artifacts_rows`:
error tokens and repeated keys are logged and dropped (first occurrence
wins); a canonical key the row loop does not handle (`weight`) is also
dropped. -/
def dimStep (d : Dims) (t : String) : Dims :=
  let kv := interpret_measure_token t
  if kv.1 == "error" then { d with msgs := d.msgs ++ [.measurePartDropped t] }
  else if kv.1 == "w" then
    if truthyStr d.width then { d with msgs := d.msgs ++ [.dimensionTwice kv.1] }
    else { d with width := some kv.2 }
  else if kv.1 == "l" then
    if truthyStr d.length then { d with msgs := d.msgs ++ [.dimensionTwice kv.1] }
    else { d with length := some kv.2 }
  else if kv.1 == "h" then
    if truthyStr d.height then { d with msgs := d.msgs ++ [.dimensionTwice kv.1] }
    else { d with height := some kv.2 }
  else if kv.1 == "thickness" then
    if truthyStr d.thickness then { d with msgs := d.msgs ++ [.dimensionTwice kv.1] }
    else { d with thickness := some kv.2 }
  else if kv.1 == "dia" then
    if truthyStr d.diameter then { d with msgs := d.msgs ++ [.dimensionTwice kv.1] }
    else { d with diameter := some kv.2 }
  else if kv.1 == "perf" then
    if truthyStr d.diameter_perf then { d with msgs := d.msgs ++ [.dimensionTwice kv.1] }
    else { d with diameter_perf := some kv.2 }
  else { d with msgs := d.msgs ++ [.dimensionUnknown kv.1] }

/-- `measures.replace(",", ";")`. -/
def pyReplaceComma (s : String) : String :=
  ⟨s.data.map (fun c => if c == ',' then ';' else c)⟩

/-- The whole measures-field parse of one artifact row. -/
def parseDims (measures : String) : Dims :=
  ((splitOnC ';' (pyReplaceComma measures).data).map (fun l => (⟨l⟩ : String))).foldl dimStep {}

/-- Outcome of the weight cell: absent, a parsed value, the
logged-and-row-skipping error branch, or a `TypeError` from concatenating
`"weight: "` with a non-string cell. -/
inductive WeightRes where
  | nothing
  | rowSkip
  | value (w : Int)
  | crashW
deriving DecidableEq, Repr

def weightStep (c : Option CellVal) : WeightRes :=
  match c with
  | none => .nothing
  | some (.vstr s) =>
    let kv := interpret_measure_token ("weight: " ++ s)
    if kv.1 == "error" then .rowSkip
    else .value (force_positive_int_from_string s)
  | some _ => .crashW

/-- Outcome of one Artifacts row: the `update` case carries the staging row
(found by lot number) with its small-find fields set. -/
inductive ArtifactOutcome where
  | sentinel
  | skip (msgs : List Msg)
  | crash (msgs : List Msg)
  | update (rec : StagingRec) (msgs : List Msg)
deriving DecidableEq, Repr

def ArtifactOutcome.isSkip : ArtifactOutcome → Bool
  | .skip _ => true
  | _ => false

def ArtifactOutcome.msgs : ArtifactOutcome → List Msg
  | .sentinel => []
  | .skip m => m
  | .crash m => m
  | .update _ m => m

/-- One Artifacts row (`import_artifacts_rows`): shared validation, measures
and weight parsing, then the cross-sheet lookup by lot number (exactly one
staging match with an equal locus context is required) and the UPDATE of the
staging row.  An error in the weight token executes `continue` on the row
loop, i.e. skips the whole row. -/
def artifactCore (rowNr : Int) (c0 c1 c2 c3 c4 c5 c6 c7 c8 c9 : CellVal)
    (staging : List StagingRec) : ArtifactOutcome :=
  if sentinelCheck c0 then .sentinel else
  match pyIntCell c0 with
  | none => .skip [.invalidLotNumber]
  | some lot_nr =>
    if lot_nr ≤ 0 then .skip [.invalidLotNumber] else
    match checkContextTrench c1 c2 with
    | .skip m => .skip m
    | .crash m => .crash m
    | .ok context _trench m0 =>
      match typeField c3 with
      | .crash m1 => .crash (m0 ++ m1)
      | .ok sf_type m1 =>
        let de := dateFieldLoud c4
        let measuresCell := getOr c5
        let weightCell := getOr c6
        let description := getOr c7
        let dr := dateFieldQuiet c8
        let photographed := truthy c9
        match (match measuresCell with
               | none => FieldRes.ok ((none : Option String), ({} : Dims)) ([] : List Msg)
               | some (.vstr s) => FieldRes.ok (some (pyReplaceComma s), parseDims s) []
               | some _ => FieldRes.crash []) with
        | .crash _ => .crash (m0 ++ m1 ++ de.2 ++ dr.2)
        | .ok ms _ =>
          let dims := ms.2
          let mAll := m0 ++ m1 ++ de.2 ++ dr.2 ++ dims.msgs
          match weightStep weightCell with
          | .crashW => .crash mAll
          | .rowSkip => .skip (mAll ++ [.weightFishy])
          | wres =>
            let weight : Option Int :=
              match wres with
              | .value w => some w
              | _ => none
            let context2 := deriveLocus context
            let key := toString lot_nr
            match staging.filter (fun r => r.lot == key) with
            | [] => .skip (mAll ++ [.noLotsMatch])
            | _ :: _ :: _ => .skip (mAll ++ [.multipleLotsMatch])
            | [r0] =>
              if context2 ≠ r0.locus then .skip (mAll ++ [.contextMismatchLots])
              else .update
                { r0 with
                  line_ref := rowNr
                  cm_type := "small_find"
                  sf_type := sf_type
                  sf_measures := ms.1
                  sf_length_mm := dims.length
                  sf_height_mm := dims.height
                  sf_width_mm := dims.width
                  sf_thickness_mm := dims.thickness
                  sf_diameter_mm := dims.diameter
                  sf_diameter_perf_mm := dims.diameter_perf
                  sf_weight := weight
                  sf_description := description
                  sf_date_excavated := de.1
                  sf_date_entered := dr.1
                  sf_photographed := some photographed }
                mAll

/-- `import_artifacts_rows` row handling applied to a spreadsheet row and the
current staging relation. -/
def rowNormalizeArtifact (rowNr : Int) (row : List CellVal)
    (staging : List StagingRec) : ArtifactOutcome :=
  artifactCore rowNr (cellAt row 0) (cellAt row 1) (cellAt row 2) (cellAt row 3)
    (cellAt row 4) (cellAt row 5) (cellAt row 6) (cellAt row 7)
    (cellAt row 8) (cellAt row 9) staging

/-- Python `float(s)` on simple decimal literals (`digits`, `digits.digits`,
`.digits`, `digits.`); other contents of the weight regex's `num` group
(commas, bars, repeated dots) raise `ValueError` = `none`.  Exact rationals
stand in for IEEE doubles; every value the claims touch is exactly
representable. -/
def pyFloatDec (s : String) : Option ℚ :=
  let l := pyStripL s.data
  match splitOnC '.' l with
  | [ip] =>
    if ip ≠ [] ∧ ip.all Char.isDigit then some (natOfDigitsL ip : ℚ) else none
  | [ip, fp] =>
    if (ip ≠ [] ∨ fp ≠ []) ∧ ip.all Char.isDigit ∧ fp.all Char.isDigit then
      some ((natOfDigitsL ip : ℚ) + (natOfDigitsL fp : ℚ) / ((10 : ℚ) ^ fp.length))
    else none
  | _ => none

/-- The `num` character class `[\d|.|,]` of `get_grams`. -/
def numClassChar (c : Char) : Bool :=
  c.isDigit || c == '|' || c == '.' || c == ','

/-- The `unit` character class `[A-z]` of `get_grams`. -/
def unitClassChar (c : Char) : Bool :=
  65 ≤ c.toNat && c.toNat ≤ 122

/-- `get_grams`: matches `^\s*(?P<num>[\d|.|,]*)\s*(?P<unit>[A-z]*)\s*$`,
parses the numeric part with `float()`, defaults the unit to grams and
multiplies kilograms by 1000.  Any raised `ValueError` is `none`.  (The
character classes are disjoint from each other and from whitespace, so the
greedy scan below is the unique regex match.)  Note: this function is defined
in the source but never called. -/
def get_grams (gram_expr : String) : Option ℚ :=
  if pyStrip gram_expr == "" then none
  else
    let l1 := gram_expr.data.dropWhile pySpace
    let num := l1.takeWhile numClassChar
    let l2 := (l1.drop num.length).dropWhile pySpace
    let unit := l2.takeWhile unitClassChar
    let l3 := (l2.drop unit.length).dropWhile pySpace
    if l3 ≠ [] then none
    else if num = [] then none
    else
      match pyFloatDec ⟨num⟩ with
      | none => none
      | some q =>
        let u := if unit = [] then "g" else pyLower ⟨unit⟩
        if u == "g" || u == "grams" || u == "gr" then some q
        else if u == "kg" || u == "k" then some (q * 1000)
        else none

/-- State of a Lots/Samples scan: the staging table, the lot keys recorded
for deferred deletion after a duplicate-key rollback, and the running
success count. -/
structure LotSt where
  staging : List StagingRec
  toDelete : List String
  successful : Int
deriving DecidableEq, Repr

/-- The shared scan loop of `import_lot_rows` / `import_sample_rows` (their
bodies are char-for-char identical apart from the row normalisation): insert
each accepted row, on a duplicate primary key roll the insert back and record
the lot for deferred deletion; a sentinel row ends the scan; an uncaught
exception aborts it (`false`). -/
def scanRun (norm : Int → List CellVal → RowOutcome) :
    List (List CellVal) → Int → LotSt → LotSt × Bool
  | [], _, st => (st, true)
  | row :: rest, rowNr, st =>
    match norm rowNr row with
    | .sentinel => (st, true)
    | .skip _ => scanRun norm rest (rowNr + 1) st
    | .crash _ => (st, false)
    | .accept rec _ =>
      if st.staging.any (fun r => r.lot == rec.lot) then
        scanRun norm rest (rowNr + 1) { st with toDelete := st.toDelete ++ [rec.lot] }
      else
        scanRun norm rest (rowNr + 1)
          { st with staging := st.staging ++ [rec], successful := st.successful + 1 }

/-- The purge step at sheet end: for each recorded lot key delete every
staging row with that key and subtract the number of deleted rows from the
success count. -/
def purgeDup : List String → List StagingRec → Int → List StagingRec × Int
  | [], t, s => (t, s)
  | k :: ks, t, s =>
    let c := ((t.filter (fun r => r.lot == k)).length : Int)
    purgeDup ks (t.filter (fun r => !(r.lot == k))) (s - c)

/-- Result of importing one sheet: the staging table afterwards, the reported
success count, and whether the scan completed (`false` = an exception escaped
and no purge ran). -/
structure SheetResult where
  staging : List StagingRec
  successful : Int
  completed : Bool
deriving DecidableEq, Repr

def import_lot_rows (rows : List (List CellVal)) (staging0 : List StagingRec) : SheetResult :=
  let r := scanRun rowNormalizeLot rows 2 ⟨staging0, [], 0⟩
  if r.2 then
    let p := purgeDup r.1.toDelete r.1.staging r.1.successful
    ⟨p.1, p.2, true⟩
  else ⟨r.1.staging, r.1.successful, false⟩

def import_sample_rows (rows : List (List CellVal)) (staging0 : List StagingRec) : SheetResult :=
  let r := scanRun rowNormalizeSample rows 2 ⟨staging0, [], 0⟩
  if r.2 then
    let p := purgeDup r.1.toDelete r.1.staging r.1.successful
    ⟨p.1, p.2, true⟩
  else ⟨r.1.staging, r.1.successful, false⟩

/-- The Artifacts scan loop: each `update` outcome replaces the staging row
with the matching lot key. -/
def artifactRun : List (List CellVal) → Int → List StagingRec → Int →
    List StagingRec × Int × Bool
  | [], _, staging, succ => (staging, succ, true)
  | row :: rest, rowNr, staging, succ =>
    match rowNormalizeArtifact rowNr row staging with
    | .sentinel => (staging, succ, true)
    | .skip _ => artifactRun rest (rowNr + 1) staging succ
    | .crash _ => (staging, succ, false)
    | .update rec _ =>
      artifactRun rest (rowNr + 1)
        (staging.map (fun r => if r.lot == rec.lot then rec else r)) (succ + 1)

def import_artifacts_rows (rows : List (List CellVal)) (staging0 : List StagingRec) :
    SheetResult :=
  let r := artifactRun rows 2 staging0 0
  ⟨r.1, r.2.1, r.2.2⟩

/-- The accepted (normalised, insert-attempted) records of a sheet scan, in
source order, cut off at the sentinel or at an uncaught exception. -/
def acceptedRecs (norm : Int → List CellVal → RowOutcome) :
    List (List CellVal) → Int → List StagingRec
  | [], _ => []
  | row :: rest, rowNr =>
    match norm rowNr row with
    | .sentinel => []
    | .crash _ => []
    | .skip _ => acceptedRecs norm rest (rowNr + 1)
    | .accept rec _ => rec :: acceptedRecs norm rest (rowNr + 1)

/-- `check_structure`: every expected column header cell must exist, be text
and match case-insensitively; any failure (including a raised attribute
access) only flips the result to `False`. -/
def check_structure (header : List CellVal) (expected : List String) : Bool :=
  expected.enum.all fun p =>
    match cellAt header p.1 with
    | .vstr s => pyLower s == pyLower p.2
    | _ => false

def expected_cols_lots : List String :=
  ["lot number", "context", "trench", "type", "date excavated", "extra info",
   "date uploaded", "total number of sherds", "recorded", "photographed"]

def expected_cols_samples : List String :=
  ["Sample Number", "context", "trench", "type", "description", "date", "notes", "location"]

def expected_cols_artifacts : List String :=
  ["lot number", "context", "trench", "type", "date excavated", "other dimensions",
   "weight", "description", "date entered", "photographed?"]

structure Sheet where
  header : List CellVal
  rows : List (List CellVal)
deriving DecidableEq, Repr

/-- A workbook: the three sheets looked up by name (`none` = sheet absent,
`wb[name]` raises `KeyError`). -/
structure Workbook where
  lots : Option Sheet
  samples : Option Sheet
  artifacts : Option Sheet
deriving DecidableEq, Repr

structure ImportResult where
  staging : List StagingRec
  structuralErrors : List String
deriving DecidableEq, Repr

/-- `import_workbook`: the structure-check loop logs a missing sheet and then
indexes `wb[sheet]` anyway (`KeyError` = `none`); a failed `check_structure`
only logs "…structural errors…: Aborting." and the loop continues — the three
sheet imports afterwards run unconditionally on a fresh staging table.  An
exception escaping a row loop propagates (= `none`). -/
def import_workbook (wb : Workbook) : Option ImportResult :=
  match wb.lots with
  | none => none
  | some shLots =>
    let e1 : List String := if check_structure shLots.header expected_cols_lots then [] else ["Lots"]
    match wb.samples with
    | none => none
    | some shSamples =>
      let e2 : List String :=
        if check_structure shSamples.header expected_cols_samples then [] else ["Samples"]
      match wb.artifacts with
      | none => none
      | some shArtifacts =>
        let e3 : List String :=
          if check_structure shArtifacts.header expected_cols_artifacts then [] else ["Artifacts"]
        let rLots := import_lot_rows shLots.rows []
        if !rLots.completed then none else
        let rSamples := import_sample_rows shSamples.rows rLots.staging
        if !rSamples.completed then none else
        let rArt := import_artifacts_rows shArtifacts.rows rSamples.staging
        if !rArt.completed then none
        else some ⟨rArt.staging, e1 ++ e2 ++ e3⟩

/-- One row of the production `locus` table (only the columns the merge
reads). -/
structure LocusRow where
  uid : Nat
  uid_unit : Nat := 0
  arch_context : Option String
deriving DecidableEq, Repr

/-- One row of the production `collected_material` table (the columns set by
the merge INSERT; `uid` stands for the generated key). -/
structure CMRow where
  uid : Nat
  uid_locus : Nat := 0
  type : Option String := none
  description : String := ""
  quantity : Option Int := none
  isobject : Int := 0
  date : Option Nat := none
  storage : Option CellVal := none
  status_todo : String := ""
  status_done : String := ""
  dearregistrar : String := ""
  created : Option Nat := none
  modified : Option Nat := none
  modified_tz : Int := 0
  modified_ww : Option Nat := none
  modified_by : String := ""
  arch_domain : Option String := none
  arch_context : Option String
  cm_type : String
deriving DecidableEq, Repr

/-- One row of the production `small_find` table (the columns set by the
merge INSERT). -/
structure SFRow where
  uid_cm : Nat
  material : Option String := none
  length : Option String := none
  width : Option String := none
  thickness : Option String := none
  weight : Option Int := none
  height : Option String := none
  diameter : Option String := none
  id_registrar : String := "admin"
  created : Option Nat := none
  modified : Option Nat := none
  modified_tz : Int := 0
  modified_ww : Option Nat := none
  modified_by : String := "admin"
deriving DecidableEq, Repr

def importMarker : String := "imported by rliim kiosk bridge"

/-- Database state seen by `import_rliim_cm_for_new_loci`.  `nextUid` models
the generator of fresh `collected_material` keys; `now`/`nowE` below model
`now()` and `now() at time zone 'US/Eastern'` during one statement batch. -/
structure MergeDB where
  rliim_cm_import : List StagingRec
  locus : List LocusRow
  collected_material : List CMRow
  small_find : List SFRow
  nextUid : Nat
deriving DecidableEq, Repr

/-- Text of a staged free-text value as it sits in the VARCHAR column. -/
def cellTextOpt : Option CellVal → Option String :=
  Option.map pyStr

/-- SQL `concat_ws(' ', …)`: joins the non-NULL parts. -/
def concatWs (sep : String) (parts : List (Option String)) : String :=
  String.intercalate sep (parts.filterMap id)

/-- The SELECT of the `collected_material` INSERT: staging rows inner-joined
to `locus` on `rliim.locus = locus.arch_context`, anti-joined against
existing `collected_material` rows on `arch_context` (`rliim.locus` is a NOT
NULL column, so the `rliim.locus is not null` conjunct is always true). -/
def cmSelect (db : MergeDB) : List (StagingRec × LocusRow) :=
  db.rliim_cm_import.flatMap fun r =>
    if !(db.collected_material.any fun c => c.arch_context == some r.arch_context) then
      (db.locus.filter fun lo => lo.arch_context == some r.locus).map fun lo => (r, lo)
    else []

/-- The column list of the `collected_material` INSERT, including the
timestamp/time-zone policy (constants 99401495 / 98284531 are the production
schema's time-zone lookup keys). -/
def mkInsertCM (now nowE : Nat) (uid : Nat) (r : StagingRec) (lo : LocusRow) : CMRow :=
  let entered := (r.sf_date_entered).orElse fun _ => r.date_entered
  { uid := uid
    uid_locus := lo.uid
    type := r.type
    description := concatWs " " [cellTextOpt r.description, cellTextOpt r.sf_description,
      r.sf_diameter_perf_mm.map (fun d => "diameter perf.: " ++ d)]
    quantity := r.count
    isobject := if r.cm_type == "small_find" then 1 else 0
    date := (r.sf_date_excavated).orElse fun _ => r.date_excavated
    storage := r.location
    status_todo := if r.photographed then "P" else ""
    status_done := if r.photographed then "P" else ""
    dearregistrar := importMarker
    created := some (entered.getD nowE)
    modified := some (entered.getD now)
    modified_tz := if entered = none then 99401495 else 98284531
    modified_ww := some (entered.getD nowE)
    modified_by := "admin"
    arch_domain := r.arch_domain
    arch_context := some r.arch_context
    cm_type := r.cm_type }

def import_rliim_step1 (now nowE : Nat) (db : MergeDB) : MergeDB × Nat :=
  let sel := cmSelect db
  let newCM := sel.enum.map (fun p => mkInsertCM now nowE (db.nextUid + p.1) p.2.1 p.2.2)
  ({ db with
      collected_material := db.collected_material ++ newCM
      nextUid := db.nextUid + newCM.length }, newCM.length)

/-- The SELECT of the `small_find` INSERT: staging rows inner-joined to
`collected_material` on `arch_context`, restricted to `cm_type =
'small_find'` rows whose `uid` is not yet referenced by a `small_find`
row. -/
def sfSelect (db : MergeDB) : List (StagingRec × CMRow) :=
  db.rliim_cm_import.flatMap fun r =>
    (db.collected_material.filter fun c =>
      c.arch_context == some r.arch_context && c.cm_type == "small_find" &&
        !(db.small_find.any fun s => s.uid_cm == c.uid)).map fun c => (r, c)

def mkInsertSF (now nowE : Nat) (r : StagingRec) (c : CMRow) : SFRow :=
  { uid_cm := c.uid
    material := r.sf_type
    length := r.sf_length_mm
    width := r.sf_width_mm
    thickness := r.sf_thickness_mm
    weight := r.sf_weight
    height := r.sf_height_mm
    diameter := r.sf_diameter_mm
    id_registrar := "admin"
    created := some (r.sf_date_entered.getD nowE)
    modified := some (r.sf_date_entered.getD now)
    modified_tz := if r.sf_date_entered = none then 99401495 else 98284531
    modified_ww := some (r.sf_date_entered.getD nowE)
    modified_by := "admin" }

def import_rliim_step2 (now nowE : Nat) (db : MergeDB) : MergeDB × Nat :=
  let sel := sfSelect db
  let newSF := sel.map (fun p => mkInsertSF now nowE p.1 p.2)
  ({ db with small_find := db.small_find ++ newSF }, newSF.length)

/-- `import_rliim_cm_for_new_loci`: the two ordered set-based INSERTs inside
one savepoint; returns the new state and the two inserted row counts. -/
def import_rliim_cm_for_new_loci (now nowE : Nat) (db : MergeDB) :
    MergeDB × Nat × Nat :=
  let s1 := import_rliim_step1 now nowE db
  let s2 := import_rliim_step2 now nowE s1.1
  (s2.1, s1.2, s2.2)

/-- One row of `collected_material_photo` (only the foreign key matters to
the erase operation). -/
structure PhotoRow where
  uid : Nat
  uid_cm : Nat
deriving DecidableEq, Repr

/-- The production database as seen by `erase_former_import`. -/
structure ProdDB where
  collected_material : List CMRow
  small_find : List SFRow
  collected_material_photo : List PhotoRow
  locus : List LocusRow
  rliim_cm_import : List StagingRec
deriving DecidableEq, Repr

def taggedUids (cms : List CMRow) : List Nat :=
  (cms.filter fun c => c.dearregistrar == importMarker).map fun c => c.uid

/-- `erase_former_import`: three ordered DELETEs — `small_find` rows whose
`uid_cm` references a marker-tagged `collected_material`, then
`collected_material_photo` rows likewise, then the tagged
`collected_material` rows themselves. -/
def erase_former_import (db : ProdDB) : ProdDB :=
  let tagged := taggedUids db.collected_material
  let sf := db.small_find.filter fun s => !(tagged.contains s.uid_cm)
  let photo := db.collected_material_photo.filter fun p => !(tagged.contains p.uid_cm)
  let cm := db.collected_material.filter fun c => !(c.dearregistrar == importMarker)
  { db with small_find := sf, collected_material_photo := photo, collected_material := cm }

/-! Concrete example inputs used by several claims. -/

/-- The staging record produced by the Lots row
`lot=5, context="A123", trench="A", type="ceramic", sherds=3` in row 2. -/
def lotsRec5 : StagingRec :=
  { line_ref := 2, cm_type := "bulk", lot := "5", locus := "A-123", unit := "A",
    arch_domain := none, arch_context := "A-123-5", local_nr := 5, type := some "ceramic",
    date_excavated := none, date_entered := none, photographed := true,
    description := none, count := some 3 }

def lotsDataRow5 : List CellVal :=
  [.vint 5, .vstr "A123", .vstr "A", .vstr "ceramic", .empty, .empty, .empty,
   .vint 3, .empty, .empty]

/-- An Artifacts row for lot 5 whose weight cell fails the unit check. -/
def artifactRowBadWeight : List CellVal :=
  [.vint 5, .vstr "A123", .vstr "A", .vstr "bead", .empty, .vstr "L:15mm;W:10mm",
   .vstr "heavy", .vstr "nice bead", .empty, .vstr "yes"]

/-- The same Artifacts row with the weight cell empty. -/
def artifactRowNoWeight : List CellVal :=
  [.vint 5, .vstr "A123", .vstr "A", .vstr "bead", .empty, .vstr "L:15mm;W:10mm",
   .empty, .vstr "nice bead", .empty, .vstr "yes"]

/-- C5: of the four MeasurementTokenParser behaviours the claim lists, three
hold on the code: "L:15mm;W:10mm" yields length "15mm" and width "10mm"
without complaints; "L:15mm;L:20mm" keeps only the first length and logs one
drop; "foo:bar" yields an error token.  The weight behaviour does not: the
artifact pass stores `force_positive_int_from_string("2.5kg")` (the first
digit run, 2, with no unit normalisation) in `sf_weight`, while the claimed
2500-gram normalisation is computed by `get_grams` — a function the source
defines but never calls. -/
theorem C5_measurement_tokens_weight_bug :
    (parseDims "L:15mm;W:10mm").length = some "15mm"
    ∧ (parseDims "L:15mm;W:10mm").width = some "10mm"
    ∧ (parseDims "L:15mm;W:10mm").msgs = []
    ∧ (parseDims "L:15mm;L:20mm").length = some "15mm"
    ∧ (parseDims "L:15mm;L:20mm").msgs = [Msg.dimensionTwice "l"]
    ∧ (interpret_measure_token "foo:bar").1 = "error"
    ∧ weightStep (some (.vstr "2.5kg")) = .value 2
    ∧ get_grams "2.5kg" = some 2500 := by
  refine ⟨by decide, by decide, by decide, by decide, by decide, by decide, by decide, ?_⟩
  have h : get_grams "2.5kg" =
      some (((natOfDigitsL ['2'] : ℚ) + (natOfDigitsL ['5'] : ℚ) /
        ((10 : ℚ) ^ (['5'] : List Char).length)) * 1000) := rfl
  have h2 : natOfDigitsL ['2'] = 2 := by decide
  have h5 : natOfDigitsL ['5'] = 5 := by decide
  rw [h, h2, h5]
  norm_num

/-- C6: the claim (and the source's own log text "Value dropped") says an
invalid weight only drops the weight value; the code instead executes
`continue` on the row loop, so the whole artifact row is skipped and the
matching staging row is never updated.  With the weight cell cleared, the
very same row does update its staging record. -/
theorem C6_bad_weight_skips_whole_row :
    (rowNormalizeArtifact 2 artifactRowBadWeight [lotsRec5]).isSkip = true
    ∧ (import_artifacts_rows [artifactRowBadWeight] [lotsRec5]).staging = [lotsRec5]
    ∧ (import_artifacts_rows [artifactRowBadWeight] [lotsRec5]).successful = 0
    ∧ (rowNormalizeArtifact 2 artifactRowNoWeight [lotsRec5]).isSkip = false
    ∧ (import_artifacts_rows [artifactRowNoWeight] [lotsRec5]).successful = 1 := by
  decide

def okHeader (cols : List String) : List CellVal := cols.map CellVal.vstr

/-- A Lots header whose first column title is wrong. -/
def badLotsHeader : List CellVal :=
  CellVal.vstr "X" :: (expected_cols_lots.drop 1).map CellVal.vstr

/-- A workbook whose Lots sheet fails the structure check but carries one
valid data row. -/
def brokenHeaderWb : Workbook :=
  { lots := some { header := badLotsHeader, rows := [lotsDataRow5] }
    samples := some { header := okHeader expected_cols_samples, rows := [] }
    artifacts := some { header := okHeader expected_cols_artifacts, rows := [] } }

/-- C7: the claim says a failed header check means the sheet's row import
does not proceed.  The code only logs "…structural errors…: Aborting." and
then imports every sheet anyway: on a workbook whose Lots header fails the
check, the structural error is reported and the Lots data row is
nevertheless inserted into staging. -/
theorem C7_structural_error_does_not_stop_import :
    check_structure badLotsHeader expected_cols_lots = false
    ∧ import_workbook brokenHeaderWb =
        some { staging := [lotsRec5], structuralErrors := ["Lots"] } := by
  decide

def taggedCM : CMRow :=
  { uid := 10, dearregistrar := importMarker, arch_context := some "A-123-1",
    cm_type := "bulk" }

def manualCM : CMRow :=
  { uid := 11, dearregistrar := "hand entered", arch_context := some "A-123-2",
    cm_type := "small_find" }

/-- A production database with one tagged and one hand-entered collected
material, each with a small find and a photo row. -/
def exProdDB : ProdDB :=
  { collected_material := [taggedCM, manualCM]
    small_find := [{ uid_cm := 10 }, { uid_cm := 11 }]
    collected_material_photo := [{ uid := 1, uid_cm := 10 }, { uid := 2, uid_cm := 11 }]
    locus := []
    rliim_cm_import := [] }

/-- C8 counterexample: the claim says `erase_former_import` changes nothing
except tagged `collected_material` rows and the `small_find` rows
referencing them; but the code also deletes `collected_material_photo` rows
referencing tagged collected material, so on `exProdDB` the photo table does
change. -/
theorem C8_erase_changes_photo_table :
    (erase_former_import exProdDB).collected_material_photo ≠
      exProdDB.collected_material_photo := by
  decide

/-- C8 amended: `erase_former_import` deletes exactly the marker-tagged
`collected_material` rows, the `small_find` rows whose `uid_cm` references a
tagged row, and additionally the `collected_material_photo` rows whose
`uid_cm` references a tagged row; every other table (locus, staging) and
every untagged/unreferencing row is kept unchanged. -/
theorem C8_erase_exact_effect (db : ProdDB) :
    ((erase_former_import db).collected_material
        = db.collected_material.filter (fun c => !(c.dearregistrar == importMarker)))
    ∧ (∀ s : SFRow, s ∈ (erase_former_import db).small_find ↔
        s ∈ db.small_find ∧ s.uid_cm ∉ taggedUids db.collected_material)
    ∧ (∀ p : PhotoRow, p ∈ (erase_former_import db).collected_material_photo ↔
        p ∈ db.collected_material_photo ∧ p.uid_cm ∉ taggedUids db.collected_material)
    ∧ (erase_former_import db).locus = db.locus
    ∧ (erase_former_import db).rliim_cm_import = db.rliim_cm_import := by
  refine ⟨rfl, ?_, ?_, rfl, rfl⟩
  · intro s
    simp [erase_former_import, List.mem_filter]
  · intro p
    simp [erase_former_import, List.mem_filter]

/-- A Lots row whose context "|123" is matched by the source's character
class `[A|B|C|D]` but not by the spec's `[A-D]`. -/
def lotRowBarContext : List CellVal :=
  [.vint 5, .vstr "|123", .vstr "|", .vstr "pottery", .empty, .empty, .empty,
   .empty, .empty, .empty]

/-- A Lots row whose trench "E" differs from the context's first letter and
is itself rejected by the trench pattern. -/
def lotRowBadTrench : List CellVal :=
  [.vint 6, .vstr "A123", .vstr "E", .vstr "pottery", .empty, .empty, .empty,
   .empty, .empty, .empty]

/-- C4 counterexample: both halves of the claim fail on the code.  The
context "|123" does not match `^[A-D]\d{3}$`, yet the row is not skipped
(the source's class `[A|B|C|D]` also matches the bar).  The context "A123"
matches, the trench "E" differs from its first character, and the row is
skipped (the trench pattern check rejects "E" before the mismatch warning is
reached). -/
theorem C4_counterexample :
    (specContextPat (pyStrip "|123") = false
      ∧ (rowNormalizeLot 2 lotRowBarContext).isSkip = false)
    ∧ (specContextPat (pyStrip "A123") = true
      ∧ pyStrip "E" ≠ pyTake1 (pyStrip "A123")
      ∧ (rowNormalizeLot 2 lotRowBadTrench).isSkip = true) := by
  decide

/-! Helper lemmas for the merge idempotence claim. -/

lemma mem_newCM_of_mem_sel (now nowE u : Nat) (sel : List (StagingRec × LocusRow))
    (p : StagingRec × LocusRow) (hp : p ∈ sel) :
    ∃ c ∈ sel.enum.map (fun q => mkInsertCM now nowE (u + q.1) q.2.1 q.2.2),
      c.arch_context = some p.1.arch_context := by
  rw [← List.enum_map_snd sel] at hp
  obtain ⟨q, hq, hq2⟩ := List.mem_map.1 hp
  refine ⟨mkInsertCM now nowE (u + q.1) q.2.1 q.2.2, List.mem_map_of_mem _ hq, ?_⟩
  show some q.2.1.arch_context = some p.1.arch_context
  rw [hq2]

lemma cmSelect_after_step1 (now nowE : Nat) (db db2 : MergeDB)
    (hrl : db2.rliim_cm_import = db.rliim_cm_import)
    (hlo : db2.locus = db.locus)
    (hcm : db2.collected_material = db.collected_material ++
      ((cmSelect db).enum.map fun q => mkInsertCM now nowE (db.nextUid + q.1) q.2.1 q.2.2)) :
    cmSelect db2 = [] := by
  unfold cmSelect
  simp only [hrl, hlo, hcm]
  apply List.flatMap_eq_nil_iff.mpr
  intro r hr
  cases hA : db.collected_material.any (fun c => c.arch_context == some r.arch_context) with
  | true => simp [List.any_append, hA]
  | false =>
    by_cases hB : (db.locus.filter fun lo => lo.arch_context == some r.locus) = []
    · rw [hB]
      simp
    · obtain ⟨lo, hlo2⟩ := List.exists_mem_of_ne_nil _ hB
      have hmem : (r, lo) ∈ cmSelect db := by
        unfold cmSelect
        apply List.mem_flatMap_of_mem hr
        rw [hA]
        simp only [Bool.not_false, if_true]
        exact List.mem_map_of_mem _ hlo2
      obtain ⟨c, hcMem, hcArch⟩ :=
        mem_newCM_of_mem_sel now nowE db.nextUid (cmSelect db) (r, lo) hmem
      have hAnyNew :
          ((cmSelect db).enum.map fun q =>
            mkInsertCM now nowE (db.nextUid + q.1) q.2.1 q.2.2).any
              (fun c => c.arch_context == some r.arch_context) = true := by
        apply List.any_eq_true.mpr
        exact ⟨c, hcMem, by simp [hcArch]⟩
      simp [List.any_append, hA, hAnyNew]

lemma mem_sfSelect (db : MergeDB) (r : StagingRec) (c : CMRow)
    (hr : r ∈ db.rliim_cm_import) (hc : c ∈ db.collected_material)
    (h1 : (c.arch_context == some r.arch_context) = true)
    (h2 : (c.cm_type == "small_find") = true)
    (h3 : db.small_find.any (fun s => s.uid_cm == c.uid) = false) :
    (r, c) ∈ sfSelect db := by
  unfold sfSelect
  apply List.mem_flatMap_of_mem hr
  apply List.mem_map_of_mem
  rw [List.mem_filter]
  exact ⟨hc, by simp [h1, h2, h3]⟩

lemma sfSelect_after_run (now nowE : Nat) (db1 db3 : MergeDB)
    (hrl : db3.rliim_cm_import = db1.rliim_cm_import)
    (hcm : db3.collected_material = db1.collected_material)
    (hsf : db3.small_find = db1.small_find ++
        (sfSelect db1).map fun p => mkInsertSF now nowE p.1 p.2) :
    sfSelect db3 = [] := by
  unfold sfSelect
  simp only [hrl, hcm, hsf]
  apply List.flatMap_eq_nil_iff.mpr
  intro r hr
  rw [List.map_eq_nil_iff]
  apply List.filter_eq_nil_iff.mpr
  intro c hc hpred
  simp only [List.any_append, Bool.and_eq_true, Bool.not_eq_true', Bool.or_eq_false_iff] at hpred
  obtain ⟨⟨h1, h2⟩, h3, h4⟩ := hpred
  have hmem : (r, c) ∈ sfSelect db1 := mem_sfSelect db1 r c hr hc h1 h2 h3
  have : ((sfSelect db1).map fun p => mkInsertSF now nowE p.1 p.2).any
      (fun s => s.uid_cm == c.uid) = true := by
    apply List.any_eq_true.mpr
    refine ⟨mkInsertSF now nowE r c, List.mem_map_of_mem _ hmem, ?_⟩
    show (c.uid == c.uid) = true
    simp
  rw [this] at h4
  cases h4

/-- C1: rerunning the production merge (`import_rliim_cm_for_new_loci`) on
the database state left by a prior run inserts zero additional
`collected_material` rows and zero additional `small_find` rows: both
set-based INSERT SELECTs are empty on the second run, because every staging
row that can join a locus already has a production counterpart with its
`arch_context`, and every `small_find`-typed collected material joined by a
staging row is already referenced through `uid_cm`. -/
theorem C1_merge_idempotent (now1 nowE1 now2 nowE2 : Nat) (db : MergeDB) :
    (import_rliim_cm_for_new_loci now2 nowE2
        (import_rliim_cm_for_new_loci now1 nowE1 db).1).2 = (0, 0) := by
  have hsel : cmSelect (import_rliim_cm_for_new_loci now1 nowE1 db).1 = [] :=
    cmSelect_after_step1 now1 nowE1 db _ rfl rfl rfl
  have hsf : sfSelect
      ((import_rliim_step1 now2 nowE2 (import_rliim_cm_for_new_loci now1 nowE1 db).1).1) = [] := by
    apply sfSelect_after_run now1 nowE1 ((import_rliim_step1 now1 nowE1 db).1)
    · rfl
    · show (import_rliim_cm_for_new_loci now1 nowE1 db).1.collected_material ++
        ((cmSelect (import_rliim_cm_for_new_loci now1 nowE1 db).1).enum.map _) = _
      rw [hsel]
      simp
      rfl
    · rfl
  show ((import_rliim_step1 now2 nowE2 _).2,
        (import_rliim_step2 now2 nowE2 (import_rliim_step1 now2 nowE2 _).1).2) = (0, 0)
  have h1 : (import_rliim_step1 now2 nowE2 (import_rliim_cm_for_new_loci now1 nowE1 db).1).2 = 0 := by
    show ((cmSelect (import_rliim_cm_for_new_loci now1 nowE1 db).1).enum.map _).length = 0
    rw [hsel]
    rfl
  have h2 : (import_rliim_step2 now2 nowE2
      (import_rliim_step1 now2 nowE2 (import_rliim_cm_for_new_loci now1 nowE1 db).1).1).2 = 0 := by
    show ((sfSelect _).map _).length = 0
    rw [hsf]
    rfl
  rw [h1, h2]

/-! Helper lemmas for the duplicate-lot purge claim. -/

lemma scanRun_toDelete_mono (norm : Int → List CellVal → RowOutcome)
    (rows : List (List CellVal)) (n : Int) (st : LotSt) (k : String)
    (hk : k ∈ st.toDelete) : k ∈ ((scanRun norm rows n st).1).toDelete := by
  induction rows generalizing n st with
  | nil => exact hk
  | cons row rest ih =>
    cases hout : norm n row with
    | sentinel => simpa [scanRun, hout] using hk
    | skip m =>
      simp only [scanRun, hout]
      exact ih _ _ hk
    | crash m => simpa [scanRun, hout] using hk
    | accept rec m =>
      cases hdup : st.staging.any (fun r => r.lot == rec.lot) with
      | true =>
        simp only [scanRun, hout, hdup, if_true]
        exact ih _ _ (List.mem_append_left _ hk)
      | false =>
        simp only [scanRun, hout, hdup, Bool.false_eq_true, if_false]
        exact ih _ _ hk

lemma scanRun_dup_of_staged (norm : Int → List CellVal → RowOutcome)
    (rows : List (List CellVal)) (n : Int) (st : LotSt) (k : String)
    (hst : st.staging.any (fun r => r.lot == k) = true)
    (hacc : k ∈ (acceptedRecs norm rows n).map (fun r => r.lot)) :
    k ∈ ((scanRun norm rows n st).1).toDelete := by
  induction rows generalizing n st with
  | nil => simp [acceptedRecs] at hacc
  | cons row rest ih =>
    cases hout : norm n row with
    | sentinel => simp [acceptedRecs, hout] at hacc
    | crash m => simp [acceptedRecs, hout] at hacc
    | skip m =>
      simp only [acceptedRecs, hout] at hacc
      simp only [scanRun, hout]
      exact ih _ _ hst hacc
    | accept rec m =>
      simp only [acceptedRecs, hout, List.map_cons, List.mem_cons] at hacc
      cases hdup : st.staging.any (fun r => r.lot == rec.lot) with
      | true =>
        simp only [scanRun, hout, hdup, if_true]
        rcases hacc with rfl | hacc2
        · exact scanRun_toDelete_mono _ _ _ _ _ (List.mem_append_right _ (by simp))
        · exact ih _ _ hst hacc2
      | false =>
        rcases hacc with rfl | hacc2
        · rw [hst] at hdup
          cases hdup
        · simp only [scanRun, hout, hdup, Bool.false_eq_true, if_false]
          apply ih _ _ _ hacc2
          simp [List.any_append, hst]

lemma scanRun_dup_of_count (norm : Int → List CellVal → RowOutcome)
    (rows : List (List CellVal)) (n : Int) (st : LotSt) (k : String)
    (h2 : 2 ≤ ((acceptedRecs norm rows n).map (fun r => r.lot)).count k) :
    k ∈ ((scanRun norm rows n st).1).toDelete := by
  induction rows generalizing n st with
  | nil => simp [acceptedRecs] at h2
  | cons row rest ih =>
    cases hout : norm n row with
    | sentinel => simp [acceptedRecs, hout] at h2
    | crash m => simp [acceptedRecs, hout] at h2
    | skip m =>
      simp only [scanRun, hout]
      apply ih
      simpa [acceptedRecs, hout] using h2
    | accept rec m =>
      simp only [acceptedRecs, hout, List.map_cons] at h2
      by_cases hk : k = rec.lot
      · subst hk
        rw [List.count_cons_self] at h2
        have h1 : ((acceptedRecs norm rest (n + 1)).map (fun r => r.lot)).count rec.lot ≠ 0 := by
          omega
        have hmem : rec.lot ∈ (acceptedRecs norm rest (n + 1)).map (fun r => r.lot) := by
          by_contra hcon
          exact h1 (List.count_eq_zero.mpr hcon)
        cases hdup : st.staging.any (fun r => r.lot == rec.lot) with
        | true =>
          simp only [scanRun, hout, hdup, if_true]
          exact scanRun_toDelete_mono _ _ _ _ _ (List.mem_append_right _ (by simp))
        | false =>
          simp only [scanRun, hout, hdup, Bool.false_eq_true, if_false]
          apply scanRun_dup_of_staged _ _ _ _ _ _ hmem
          simp [List.any_append]
      · rw [List.count_cons_of_ne hk] at h2
        cases hdup : st.staging.any (fun r => r.lot == rec.lot) with
        | true =>
          simp only [scanRun, hout, hdup, if_true]
          exact ih _ _ h2
        | false =>
          simp only [scanRun, hout, hdup, Bool.false_eq_true, if_false]
          exact ih _ _ h2

lemma purgeDup_subset (ks : List String) (t : List StagingRec) (s : Int) :
    (purgeDup ks t s).1 ⊆ t := by
  induction ks generalizing t s with
  | nil => exact fun x hx => hx
  | cons k ks ih =>
    intro x hx
    simp only [purgeDup] at hx
    exact List.mem_of_mem_filter (ih _ _ hx)

lemma purgeDup_not_mem (ks : List String) (t : List StagingRec) (s : Int) (k : String)
    (hk : k ∈ ks) :
    ((purgeDup ks t s).1).filter (fun r => r.lot == k) = [] := by
  revert hk
  induction ks generalizing t s with
  | nil =>
    intro hk
    cases hk
  | cons k2 ks ih =>
    intro hk
    by_cases he : k2 = k
    · subst he
      apply List.filter_eq_nil_iff.mpr
      intro r hr
      have hr2 : r ∈ t.filter (fun r => !(r.lot == k2)) := by
        apply purgeDup_subset ks _ _
        simpa only [purgeDup] using hr
      have hno := (List.mem_filter.mp hr2).2
      simp only [Bool.not_eq_true'] at hno
      simp [hno]
    · have hk2 : k ∈ ks := by
        rcases List.mem_cons.mp hk with rfl | h
        · exact absurd rfl he
        · exact h
      simp only [purgeDup]
      exact ih _ _ hk2

lemma purgeDup_successful (ks : List String) (t : List StagingRec) (s : Int) :
    (purgeDup ks t s).2 = s - ((t.length : Int) - ((purgeDup ks t s).1.length : Int)) := by
  induction ks generalizing t s with
  | nil => simp [purgeDup]
  | cons k ks ih =>
    simp only [purgeDup]
    rw [ih]
    have hsplit : t.length = (t.filter (fun r => r.lot == k)).length +
        (t.filter (fun r => !(r.lot == k))).length :=
      List.length_eq_length_filter_add _
    omega

lemma lotCore_lot_repr (rowNr : Int) (c0 c1 c2 c3 c4 c5 c6 c7 : CellVal)
    (rec : StagingRec) (m : List Msg)
    (h : lotCore rowNr c0 c1 c2 c3 c4 c5 c6 c7 = .accept rec m) :
    rec.lot = toString rec.local_nr := by
  unfold lotCore at h
  repeat' split at h
  all_goals first
    | (injection h with hrec hm
       subst hrec
       simp)
    | injection h

lemma acceptedRecs_lot_repr (rows : List (List CellVal)) (n : Int) :
    ∀ rec ∈ acceptedRecs rowNormalizeLot rows n, rec.lot = toString rec.local_nr := by
  induction rows generalizing n with
  | nil =>
    intro rec h
    simp [acceptedRecs] at h
  | cons row rest ih =>
    intro rec h
    cases hout : rowNormalizeLot n row with
    | sentinel => simp [acceptedRecs, hout] at h
    | crash m => simp [acceptedRecs, hout] at h
    | skip m =>
      simp only [acceptedRecs, hout] at h
      exact ih _ rec h
    | accept rec2 m =>
      simp only [acceptedRecs, hout, List.mem_cons] at h
      rcases h with rfl | h2
      · exact lotCore_lot_repr _ _ _ _ _ _ _ _ _ _ _ hout
      · exact ih _ rec h2

lemma count_lot_ge (l : List StagingRec) (N : Int)
    (h : ∀ rec ∈ l, rec.lot = toString rec.local_nr) :
    (l.map (fun r => r.local_nr)).count N ≤ (l.map (fun r => r.lot)).count (toString N) := by
  induction l with
  | nil => simp
  | cons x xs ih =>
    have hx := h x (List.mem_cons_self _ _)
    have ih2 := ih fun rec hr => h rec (List.mem_cons_of_mem _ hr)
    simp only [List.map_cons, List.count_cons]
    by_cases hxx : x.local_nr = N
    · have h1 : (x.local_nr == N) = true := by simp [hxx]
      have h2 : (x.lot == toString N) = true := by
        rw [hx, hxx]
        simp
      simp only [h1, h2, if_true]
      omega
    · have h1 : (x.local_nr == N) = false := by simp [hxx]
      by_cases h2 : (x.lot == toString N) = true
      · simp only [h1, h2, if_true]
        simp
        omega
      · simp only [h1, eq_false_of_ne_true h2]
        simp
        omega

/-- C2: when a lot number appears in two or more otherwise-valid Lots rows,
after the purge step of `import_lot_rows` the staging table has zero rows
with that lot key (the first inserted row is deleted too), and the reported
success count equals the in-loop success count minus the number of rows the
purge deleted. -/
theorem C2_duplicate_lot_purge (rows : List (List CellVal)) (N : Int)
    (hdup : 2 ≤ ((acceptedRecs rowNormalizeLot rows 2).map (fun r => r.local_nr)).count N)
    (hok : (scanRun rowNormalizeLot rows 2 ⟨[], [], 0⟩).2 = true) :
    ((import_lot_rows rows []).staging.filter (fun r => r.lot == toString N)) = []
    ∧ (import_lot_rows rows []).successful =
        (scanRun rowNormalizeLot rows 2 ⟨[], [], 0⟩).1.successful -
          (((scanRun rowNormalizeLot rows 2 ⟨[], [], 0⟩).1.staging.length : Int) -
            ((import_lot_rows rows []).staging.length : Int)) := by
  have hcount : 2 ≤
      ((acceptedRecs rowNormalizeLot rows 2).map (fun r => r.lot)).count (toString N) :=
    le_trans hdup (count_lot_ge _ _ (acceptedRecs_lot_repr rows 2))
  have hmem : toString N ∈ ((scanRun rowNormalizeLot rows 2 ⟨[], [], 0⟩).1).toDelete :=
    scanRun_dup_of_count _ _ _ _ _ hcount
  have himp : import_lot_rows rows [] =
      ⟨(purgeDup (scanRun rowNormalizeLot rows 2 ⟨[], [], 0⟩).1.toDelete
          (scanRun rowNormalizeLot rows 2 ⟨[], [], 0⟩).1.staging
          (scanRun rowNormalizeLot rows 2 ⟨[], [], 0⟩).1.successful).1,
        (purgeDup (scanRun rowNormalizeLot rows 2 ⟨[], [], 0⟩).1.toDelete
          (scanRun rowNormalizeLot rows 2 ⟨[], [], 0⟩).1.staging
          (scanRun rowNormalizeLot rows 2 ⟨[], [], 0⟩).1.successful).2, true⟩ := by
    simp only [import_lot_rows, hok, if_true]
  constructor
  · rw [himp]
    exact purgeDup_not_mem _ _ _ _ hmem
  · rw [himp]
    exact purgeDup_successful _ _ _

/-- The Lots rows of the duplicate-lot witness: lot 7 occurs twice. -/
def dupLotRows : List (List CellVal) :=
  [[.vint 7, .vstr "A123", .vstr "A", .vstr "ceramic", .empty, .empty, .empty, .vint 3, .empty, .empty],
   [.vint 8, .vstr "A124", .vstr "A", .vstr "ceramic", .empty, .empty, .empty, .empty, .empty, .empty],
   [.vint 7, .vstr "A125", .vstr "A", .vstr "bone", .empty, .empty, .empty, .empty, .empty, .empty]]

/-- C2 witness: the hypotheses and conclusion of `C2_duplicate_lot_purge`
hold on a concrete sheet where lot 7 appears twice. -/
theorem C2_duplicate_lot_purge_witness :
    (2 ≤ ((acceptedRecs rowNormalizeLot dupLotRows 2).map (fun r => r.local_nr)).count 7
      ∧ (scanRun rowNormalizeLot dupLotRows 2 ⟨[], [], 0⟩).2 = true)
    ∧ (((import_lot_rows dupLotRows []).staging.filter (fun r => r.lot == toString 7)) = []
      ∧ (import_lot_rows dupLotRows []).successful =
        (scanRun rowNormalizeLot dupLotRows 2 ⟨[], [], 0⟩).1.successful -
          (((scanRun rowNormalizeLot dupLotRows 2 ⟨[], [], 0⟩).1.staging.length : Int) -
            ((import_lot_rows dupLotRows []).staging.length : Int))) :=
  ⟨⟨by decide, by decide⟩, C2_duplicate_lot_purge dupLotRows 7 (by decide) (by decide)⟩

lemma dateFieldLoud_fst (c : CellVal) : (dateFieldLoud c).1 = dateOf c := by
  cases c with
  | empty => rfl
  | vstr s => by_cases hs : s = "" <;> simp [dateFieldLoud, getOr, truthy, dateOf, hs]
  | vint n => by_cases hn : n = 0 <;> simp [dateFieldLoud, getOr, truthy, dateOf, hn]
  | vbool b => cases b <;> rfl
  | vdate d => rfl

/-- C10: every staging record accepted by the Samples pass has
`photographed = false`, a NULL `count`, and `date_entered` equal to its
`date_excavated`, which is the sheet's date cell when that cell is a
datetime and NULL otherwise. -/
theorem C10_sample_invariants (rowNr : Int) (row : List CellVal) (rec : StagingRec)
    (m : List Msg) (h : rowNormalizeSample rowNr row = .accept rec m) :
    rec.photographed = false ∧ rec.count = none
    ∧ rec.date_entered = rec.date_excavated
    ∧ rec.date_excavated = dateOf (cellAt row 5) := by
  unfold rowNormalizeSample sampleCore at h
  repeat' split at h
  all_goals first
    | (injection h with hrec hm
       subst hrec
       exact ⟨rfl, rfl, rfl, dateFieldLoud_fst _⟩)
    | injection h

/-- A valid Samples row: sample S12 in context B001. -/
def sampleRow12 : List CellVal :=
  [.vstr "S12", .vstr "B001", .vstr "B", .vstr "soil", .vstr "desc", .vdate 77,
   .vstr "note", .vstr "shelf"]

/-- The staging record the Samples pass produces for `sampleRow12`. -/
def sampleRec12 : StagingRec :=
  { line_ref := 2, cm_type := "sample", lot := "S12", locus := "B-001", unit := "B",
    arch_domain := some "S", arch_context := "B-001-S12", local_nr := 12,
    type := some "soil", date_excavated := some 77, date_entered := some 77,
    photographed := false, description := some (.vstr "desc note"), count := none,
    location := some (.vstr "shelf") }

/-- C10 witness: the invariants instantiated on the concrete row `sampleRow12`. -/
theorem C10_sample_invariants_witness :
    sampleRec12.photographed = false ∧ sampleRec12.count = none
    ∧ sampleRec12.date_entered = sampleRec12.date_excavated
    ∧ sampleRec12.date_excavated = dateOf (cellAt sampleRow12 5) :=
  C10_sample_invariants 2 sampleRow12 sampleRec12 [] (by decide)

lemma cellAt_set_ne (row : List CellVal) (v : CellVal) (i j : Nat) (hij : i ≠ j) :
    cellAt (row.set i v) j = cellAt row j := by
  unfold cellAt
  rw [List.getD, List.getD, List.get?_set_ne v row hij]

/-- C9: for every accepted Lots row the staging record's photographed flag
equals the truthiness of the cell at column index 7 (the sherd-count
column); replacing the cell at column index 9 (the sheet's photographed
column) by any value leaves the whole row outcome unchanged. -/
theorem C9_photographed_from_sherd_column (rowNr : Int) (row : List CellVal)
    (v : CellVal) (rec : StagingRec) (m : List Msg)
    (h : rowNormalizeLot rowNr row = .accept rec m) :
    rec.photographed = truthy (cellAt row 7)
    ∧ rowNormalizeLot rowNr (row.set 9 v) = rowNormalizeLot rowNr row := by
  constructor
  · unfold rowNormalizeLot lotCore at h
    repeat' split at h
    all_goals first
      | (injection h with hrec hm
         subst hrec
         rfl)
      | injection h
  · unfold rowNormalizeLot
    rw [cellAt_set_ne row v 9 0 (by omega), cellAt_set_ne row v 9 1 (by omega),
      cellAt_set_ne row v 9 2 (by omega), cellAt_set_ne row v 9 3 (by omega),
      cellAt_set_ne row v 9 4 (by omega), cellAt_set_ne row v 9 5 (by omega),
      cellAt_set_ne row v 9 6 (by omega), cellAt_set_ne row v 9 7 (by omega)]

/-- C9 witness: the two parts instantiated on `lotsDataRow5` with the
photographed column overwritten by "yes". -/
theorem C9_photographed_witness :
    lotsRec5.photographed = truthy (cellAt lotsDataRow5 7)
    ∧ rowNormalizeLot 2 (lotsDataRow5.set 9 (.vstr "yes")) = rowNormalizeLot 2 lotsDataRow5 :=
  C9_photographed_from_sherd_column 2 lotsDataRow5 (.vstr "yes") lotsRec5
    [Msg.dateExcavatedEmpty] (by decide)

lemma checkContextTrench_ok_context (c1 c2 : CellVal) (a b : String) (m : List Msg)
    (h : checkContextTrench c1 c2 = .ok a b m) :
    ∃ cs, c1 = .vstr cs ∧ a = pyStrip cs := by
  unfold checkContextTrench at h
  repeat' split at h
  all_goals first
    | (injection h with h1 h2 h3
       exact ⟨_, rfl, h1.symm⟩)
    | injection h

/-- C3: for every accepted Lots row whose context cell is the trench letter
`X` followed by the three characters `d1 d2 d3` and whose lot number parses
to the positive integer `N`, the derived locus is the string `X-d1d2d3` and
the derived arch_context is `X-d1d2d3-N`. -/
theorem C3_arch_context_derivation (rowNr : Int) (row : List CellVal)
    (X d1 d2 d3 : Char) (cs : String) (N : Int) (rec : StagingRec) (m : List Msg)
    (hX : X = 'A' ∨ X = 'B' ∨ X = 'C' ∨ X = 'D')
    (hc : cellAt row 1 = .vstr cs)
    (hcs : pyStrip cs = ⟨[X, d1, d2, d3]⟩)
    (hlot : pyIntCell (cellAt row 0) = some N)
    (hN : 0 < N)
    (h : rowNormalizeLot rowNr row = .accept rec m) :
    rec.locus = ⟨[X, '-', d1, d2, d3]⟩
    ∧ rec.arch_context = ⟨[X, '-', d1, d2, d3, '-'] ++ (toString N).data⟩ := by
  unfold rowNormalizeLot lotCore at h
  simp only [hc, hlot] at h
  split at h
  · injection h
  rw [if_neg (by omega)] at h
  cases hct : checkContextTrench (.vstr cs) (cellAt row 2) with
  | skip m0 =>
    simp only [hct] at h
    injection h
  | crash m0 =>
    simp only [hct] at h
    injection h
  | ok a b m0 =>
    simp only [hct] at h
    obtain ⟨cs2, hcs2, ha⟩ := checkContextTrench_ok_context _ _ _ _ _ hct
    injection hcs2 with hcc
    cases htf : typeField (cellAt row 3) with
    | crash m1 =>
      simp only [htf] at h
      injection h
    | ok lot_type m1 =>
      simp only [htf] at h
      cases hsh : sherdField (cellAt row 7) lot_type with
      | crash m4 =>
        simp only [hsh] at h
        injection h
      | ok sherd m4 =>
        simp only [hsh] at h
        injection h with hrec hm
        subst hrec
        have ha2 : a = String.mk [X, d1, d2, d3] := by
          rw [ha, ← hcc, hcs]
        subst ha2
        exact ⟨rfl, rfl⟩

/-- C3 witness: the derivation instantiated on the concrete Lots row with
context "A123" and lot 5. -/
theorem C3_arch_context_witness :
    lotsRec5.locus = ⟨['A', '-', '1', '2', '3']⟩
    ∧ lotsRec5.arch_context = ⟨['A', '-', '1', '2', '3', '-'] ++ (toString (5 : Int)).data⟩ :=
  C3_arch_context_derivation 2 lotsDataRow5 'A' '1' '2' '3' "A123" 5 lotsRec5
    [Msg.dateExcavatedEmpty] (Or.inl rfl) (by decide) (by decide) (by decide)
    (by decide) (by decide)

/-! Helper lemmas for the context/trench validation claim. -/

lemma checkContextTrench_skip_of_bad (cs : String) (c2 : CellVal)
    (hbad : codeContextPat (pyStrip cs) = false) :
    checkContextTrench (.vstr cs) c2 = .skip [.contextNotRight] := by
  simp only [checkContextTrench]
  rw [hbad]
  simp

lemma codeContextPat_ne_nil (s : String) (h : codeContextPat s = true) : s.data ≠ [] := by
  intro hnil
  unfold codeContextPat at h
  rw [hnil] at h
  cases h

lemma checkContextTrench_mismatch (cs ts : String)
    (hc : codeContextPat (pyStrip cs) = true)
    (ht : codeTrenchPat (pyStrip ts) = true)
    (hne : pyStrip ts ≠ pyTake1 (pyStrip cs)) :
    checkContextTrench (.vstr cs) (.vstr ts) =
      .ok (pyStrip cs) (pyStrip ts) [.trenchMismatch] := by
  simp only [checkContextTrench, hc, ht]
  simp only [eq_self_iff_true, if_true]
  rw [if_pos ⟨codeContextPat_ne_nil _ hc, hne⟩]

lemma lotCore_skip_of_bad_context (rowNr : Int) (c0 c1 c2 c3 c4 c5 c6 c7 : CellVal)
    (cs : String) (hsent : sentinelCheck c0 = false)
    (hc1 : c1 = .vstr cs) (hbad : codeContextPat (pyStrip cs) = false) :
    (lotCore rowNr c0 c1 c2 c3 c4 c5 c6 c7).isSkip = true := by
  unfold lotCore
  subst hc1
  rw [checkContextTrench_skip_of_bad cs c2 hbad]
  simp only [hsent, Bool.false_eq_true, if_false]
  cases hpi : pyIntCell c0 with
  | none => rfl
  | some n =>
    by_cases hn : n ≤ 0
    · simp [hn, RowOutcome.isSkip]
    · simp [hn, RowOutcome.isSkip]

lemma sampleCore_skip_of_bad_context (rowNr : Int) (c0 c1 c2 c3 c4 c5 c6 c7 : CellVal)
    (cs : String) (hsent : sentinelCheck c0 = false)
    (hc1 : c1 = .vstr cs) (hbad : codeContextPat (pyStrip cs) = false) :
    (sampleCore rowNr c0 c1 c2 c3 c4 c5 c6 c7).isSkip = true := by
  unfold sampleCore
  subst hc1
  rw [checkContextTrench_skip_of_bad cs c2 hbad]
  simp only [hsent, Bool.false_eq_true, if_false]
  cases hpl : sampleLotParse c0 with
  | none => rfl
  | some p =>
    by_cases hn : p.2 ≤ 0
    · simp [hn, RowOutcome.isSkip]
    · simp [hn, RowOutcome.isSkip]

lemma artifactCore_skip_of_bad_context (rowNr : Int)
    (c0 c1 c2 c3 c4 c5 c6 c7 c8 c9 : CellVal) (staging : List StagingRec)
    (cs : String) (hsent : sentinelCheck c0 = false)
    (hc1 : c1 = .vstr cs) (hbad : codeContextPat (pyStrip cs) = false) :
    (artifactCore rowNr c0 c1 c2 c3 c4 c5 c6 c7 c8 c9 staging).isSkip = true := by
  unfold artifactCore
  subst hc1
  rw [checkContextTrench_skip_of_bad cs c2 hbad]
  simp only [hsent, Bool.false_eq_true, if_false]
  cases hpi : pyIntCell c0 with
  | none => rfl
  | some n =>
    by_cases hn : n ≤ 0
    · simp [hn, ArtifactOutcome.isSkip]
    · simp [hn, ArtifactOutcome.isSkip]

lemma lotCore_mismatch_warns (rowNr : Int) (c0 c1 c2 c3 c4 c5 c6 c7 : CellVal)
    (cs ts : String) (N : Int)
    (hsent : sentinelCheck c0 = false)
    (hpi : pyIntCell c0 = some N) (hN : 0 < N)
    (hc1 : c1 = .vstr cs) (hcp : codeContextPat (pyStrip cs) = true)
    (hc2 : c2 = .vstr ts) (htp : codeTrenchPat (pyStrip ts) = true)
    (hne : pyStrip ts ≠ pyTake1 (pyStrip cs)) :
    (lotCore rowNr c0 c1 c2 c3 c4 c5 c6 c7).isSkip = false
    ∧ Msg.trenchMismatch ∈ (lotCore rowNr c0 c1 c2 c3 c4 c5 c6 c7).msgs := by
  unfold lotCore
  subst hc1
  subst hc2
  rw [checkContextTrench_mismatch cs ts hcp htp hne]
  simp only [hsent, Bool.false_eq_true, if_false, hpi]
  rw [if_neg (by omega)]
  cases htf : typeField c3 with
  | crash m1 => simp [htf, RowOutcome.isSkip, RowOutcome.msgs]
  | ok lot_type m1 =>
    cases hsh : sherdField c7 lot_type with
    | crash m4 => simp [htf, hsh, RowOutcome.isSkip, RowOutcome.msgs]
    | ok sherd m4 => simp [htf, hsh, RowOutcome.isSkip, RowOutcome.msgs]

lemma sampleCore_mismatch_warns (rowNr : Int) (c0 c1 c2 c3 c4 c5 c6 c7 : CellVal)
    (lotStr cs ts : String) (N : Int)
    (hsent : sentinelCheck c0 = false)
    (hc0 : c0 = .vstr lotStr)
    (hpi : pyIntStr ⟨lotStr.data.drop 1⟩ = some N) (hN : 0 < N)
    (hc1 : c1 = .vstr cs) (hcp : codeContextPat (pyStrip cs) = true)
    (hc2 : c2 = .vstr ts) (htp : codeTrenchPat (pyStrip ts) = true)
    (hne : pyStrip ts ≠ pyTake1 (pyStrip cs)) :
    (sampleCore rowNr c0 c1 c2 c3 c4 c5 c6 c7).isSkip = false
    ∧ Msg.trenchMismatch ∈ (sampleCore rowNr c0 c1 c2 c3 c4 c5 c6 c7).msgs := by
  have hpl : sampleLotParse c0 = some (lotStr, N) := by
    rw [hc0]
    rw [List.drop_one] at hpi
    simp [sampleLotParse, hpi]
  unfold sampleCore
  subst hc1
  subst hc2
  rw [checkContextTrench_mismatch cs ts hcp htp hne]
  simp only [hsent, Bool.false_eq_true, if_false, hpl]
  rw [if_neg (by omega)]
  cases htf : typeField c3 with
  | crash m1 => simp [htf, RowOutcome.isSkip, RowOutcome.msgs]
  | ok lot_type m1 =>
    cases hnf : notesField (getOr c4) c6 with
    | crash m2 => simp [htf, hnf, RowOutcome.isSkip, RowOutcome.msgs]
    | ok d2 m2 => simp [htf, hnf, RowOutcome.isSkip, RowOutcome.msgs]

/-- C4 amended: in all three passes a context cell whose stripped text fails
the source's pattern `^[A-D|]\d\d\d$` (the spec's `[A-D]` class widened by
the literal bar that `[A|B|C|D]` also matches) causes the row to be skipped.
A trench that itself matches `^[A-D|]$` but differs from the context's first
character makes the shared validation block return its ok result with
exactly a mismatch warning; in the Lots and Samples passes such a row is
never skipped.  (In the Artifacts pass the row can still be skipped later by
the reconciliation lookups or the weight branch, so only the validation
block's behaviour is asserted there.) -/
theorem C4_context_pattern_amended :
    (∀ (rowNr : Int) (row : List CellVal) (cs : String),
      sentinelCheck (cellAt row 0) = false → cellAt row 1 = .vstr cs →
      codeContextPat (pyStrip cs) = false →
      (rowNormalizeLot rowNr row).isSkip = true)
    ∧ (∀ (rowNr : Int) (row : List CellVal) (cs : String),
      sentinelCheck (cellAt row 0) = false → cellAt row 1 = .vstr cs →
      codeContextPat (pyStrip cs) = false →
      (rowNormalizeSample rowNr row).isSkip = true)
    ∧ (∀ (rowNr : Int) (row : List CellVal) (staging : List StagingRec) (cs : String),
      sentinelCheck (cellAt row 0) = false → cellAt row 1 = .vstr cs →
      codeContextPat (pyStrip cs) = false →
      (rowNormalizeArtifact rowNr row staging).isSkip = true)
    ∧ (∀ cs ts : String,
      codeContextPat (pyStrip cs) = true → codeTrenchPat (pyStrip ts) = true →
      pyStrip ts ≠ pyTake1 (pyStrip cs) →
      checkContextTrench (.vstr cs) (.vstr ts) =
        .ok (pyStrip cs) (pyStrip ts) [.trenchMismatch])
    ∧ (∀ (rowNr : Int) (row : List CellVal) (cs ts : String) (N : Int),
      sentinelCheck (cellAt row 0) = false →
      pyIntCell (cellAt row 0) = some N → 0 < N →
      cellAt row 1 = .vstr cs → codeContextPat (pyStrip cs) = true →
      cellAt row 2 = .vstr ts → codeTrenchPat (pyStrip ts) = true →
      pyStrip ts ≠ pyTake1 (pyStrip cs) →
      (rowNormalizeLot rowNr row).isSkip = false
        ∧ Msg.trenchMismatch ∈ (rowNormalizeLot rowNr row).msgs)
    ∧ (∀ (rowNr : Int) (row : List CellVal) (lotStr cs ts : String) (N : Int),
      sentinelCheck (cellAt row 0) = false →
      cellAt row 0 = .vstr lotStr →
      pyIntStr ⟨lotStr.data.drop 1⟩ = some N → 0 < N →
      cellAt row 1 = .vstr cs → codeContextPat (pyStrip cs) = true →
      cellAt row 2 = .vstr ts → codeTrenchPat (pyStrip ts) = true →
      pyStrip ts ≠ pyTake1 (pyStrip cs) →
      (rowNormalizeSample rowNr row).isSkip = false
        ∧ Msg.trenchMismatch ∈ (rowNormalizeSample rowNr row).msgs) := by
  refine ⟨?_, ?_, ?_, ?_, ?_, ?_⟩
  · intro rowNr row cs hsent hc1 hbad
    exact lotCore_skip_of_bad_context rowNr _ _ _ _ _ _ _ _ cs hsent hc1 hbad
  · intro rowNr row cs hsent hc1 hbad
    exact sampleCore_skip_of_bad_context rowNr _ _ _ _ _ _ _ _ cs hsent hc1 hbad
  · intro rowNr row staging cs hsent hc1 hbad
    exact artifactCore_skip_of_bad_context rowNr _ _ _ _ _ _ _ _ _ _ staging cs hsent hc1 hbad
  · intro cs ts hcp htp hne
    exact checkContextTrench_mismatch cs ts hcp htp hne
  · intro rowNr row cs ts N hsent hpi hN hc1 hcp hc2 htp hne
    exact lotCore_mismatch_warns rowNr _ _ _ _ _ _ _ _ cs ts N hsent hpi hN hc1 hcp hc2 htp hne
  · intro rowNr row lotStr cs ts N hsent hc0 hpi hN hc1 hcp hc2 htp hne
    exact sampleCore_mismatch_warns rowNr _ _ _ _ _ _ _ _ lotStr cs ts N hsent hc0 hpi hN hc1 hcp hc2 htp hne

/-- C4 witness: every part of the amended statement instantiated on concrete
rows — a Lots/Samples/Artifacts row with context "E123" (skipped), and a
Lots/Samples row with context "A123" and mismatched trench "B" (accepted
with a warning). -/
theorem C4_context_pattern_amended_witness :
    ((rowNormalizeLot 2 [.vint 5, .vstr "E123", .vstr "A", .vstr "x"]).isSkip = true)
    ∧ ((rowNormalizeSample 2 [.vstr "S5", .vstr "E123", .vstr "A", .vstr "x"]).isSkip = true)
    ∧ ((rowNormalizeArtifact 2 [.vint 5, .vstr "E123", .vstr "A", .vstr "x"] []).isSkip = true)
    ∧ (checkContextTrench (.vstr "A123") (.vstr "B") =
        .ok (pyStrip "A123") (pyStrip "B") [.trenchMismatch])
    ∧ ((rowNormalizeLot 2 [.vint 5, .vstr "A123", .vstr "B", .vstr "x"]).isSkip = false
        ∧ Msg.trenchMismatch ∈ (rowNormalizeLot 2 [.vint 5, .vstr "A123", .vstr "B", .vstr "x"]).msgs)
    ∧ ((rowNormalizeSample 2 [.vstr "S5", .vstr "A123", .vstr "B", .vstr "x"]).isSkip = false
        ∧ Msg.trenchMismatch ∈ (rowNormalizeSample 2 [.vstr "S5", .vstr "A123", .vstr "B", .vstr "x"]).msgs) :=
  ⟨C4_context_pattern_amended.1 2 _ "E123" (by decide) (by decide) (by decide),
   C4_context_pattern_amended.2.1 2 _ "E123" (by decide) (by decide) (by decide),
   C4_context_pattern_amended.2.2.1 2 _ [] "E123" (by decide) (by decide) (by decide),
   C4_context_pattern_amended.2.2.2.1 "A123" "B" (by decide) (by decide) (by decide),
   C4_context_pattern_amended.2.2.2.2.1 2 _ "A123" "B" 5 (by decide) (by decide)
     (by decide) (by decide) (by decide) (by decide) (by decide) (by decide),
   C4_context_pattern_amended.2.2.2.2.2 2 _ "S5" "A123" "B" 5 (by decide) (by decide)
     (by decide) (by decide) (by decide) (by decide) (by decide) (by decide) (by decide)⟩
